import Mathlib

/-!
Shallow embedding of the treasury-bill calculator (`web_calculator.py`).

The acquisition pipeline (`fetch_data_from_cbe`) is embedded from the point
where the tenor and yield cell lists have been extracted from the page: the
Selenium fetch, table location and row extraction either raise (modelled as
an `Except.error` input carrying the exception message) or deliver the two
raw cell lists.  `pd.to_numeric(errors := coerce)` results are modelled as
`Option` values (`none` = NaN after coercion).  Money and rates are `ℚ`;
tenors are `ℤ`; dates are ISO `String`s (lexicographic order equals
chronological order for ISO dates, matching SQLite `MAX` on the text
column).  The SQLite table keyed by (date, tenor) is modelled as a list of
rows where `INSERT OR REPLACE` removes the row with the same key and
prepends the new one.
-/

namespace WebCalculator

/-- `DAYS_IN_YEAR = 365` from the source constants. -/
def DAYS_IN_YEAR : ℚ := 365

/-- `DEFAULT_TAX_RATE_PERCENT = 20.0` from the source constants. -/
def DEFAULT_TAX_RATE_PERCENT : ℚ := 20

/-- `INITIAL_DATA`: hardcoded fallback tenor/yield pairs used when the
database file is absent or empty. -/
def INITIAL_DATA : List (Int × ℚ) :=
  [(91, 26.914), (182, 27.151), (273, 26.534), (364, 24.994)]

/-- One stored row of the `cbe_bids` table:
(`textDate`, tenor days, yield percent). -/
structure Row where
  auctionDate : String
  tenorDays : Int
  yieldPercent : ℚ
deriving DecidableEq, Repr

/-- The (date, tenor) primary key of a stored row. -/
def keyOf (r : Row) : String × Int := (r.auctionDate, r.tenorDays)

/-- `INSERT OR REPLACE` of a single row: any row with the same
(date, tenor) key is replaced. -/
def insert_or_replace (store : List Row) (r : Row) : List Row :=
  r :: store.filter (fun q => keyOf q ≠ keyOf r)

/-- The insertion loop of `fetch_data_from_cbe` (lines 147-152): every row
of the final frame is written with `INSERT OR REPLACE`. -/
def upsert (store : List Row) (snap : List Row) : List Row :=
  snap.foldl insert_or_replace store

/-- Result of `load_data`: either the `INITIAL_DATA` fallback frame
(which has no date column) or the rows read back from the database. -/
inductive LoadResult
  | fallback (pairs : List (Int × ℚ))
  | stored (rows : List Row)
deriving DecidableEq, Repr

/-- `load_data`: `none` models a missing database file, `some rows` the
table contents.  Missing file or empty table give the `INITIAL_DATA`
fallback; otherwise all rows whose date is the maximum stored date are
returned (`SELECT MAX(date)` then `SELECT * WHERE date = ?`). -/
def load_data (db : Option (List Row)) : LoadResult :=
  match db with
  | none => .fallback INITIAL_DATA
  | some rows =>
    match (rows.map Row.auctionDate).maximum with
    | none => .fallback INITIAL_DATA
    | some d => .stored (rows.filter (fun r => r.auctionDate = d))

/-- `dropna` over the zipped tenor/yield columns: a row survives only when
both `pd.to_numeric` coercions succeeded. -/
def dropna (cells : List (Option Int × Option ℚ)) : List (Int × ℚ) :=
  cells.filterMap (fun c =>
    match c with
    | (some t, some y) => some (t, y)
    | _ => none)

/-- The observed 182/364 mapping correction (lines 129-136): when both
tenors are present, every tenor-182 row receives the yield of the first
tenor-364 row and vice versa. -/
def apply_tenor_correction (rows : List (Int × ℚ)) : List (Int × ℚ) :=
  match rows.find? (fun r => r.1 = 182), rows.find? (fun r => r.1 = 364) with
  | some r182, some r364 =>
    rows.map (fun r =>
      if r.1 = 182 then (r.1, r364.2)
      else if r.1 = 364 then (r.1, r182.2)
      else r)
  | _, _ => rows

/-- `sort_values` on the tenor column (ascending, stable). -/
def sort_by_tenor (rows : List (Int × ℚ)) : List (Int × ℚ) :=
  rows.mergeSort (fun a b => a.1 ≤ b.1)

/-- The tuple returned by `fetch_data_from_cbe`:
`(final_df, status, message, fetch date)`, with `None` modelled as
`none`. -/
structure FetchResult where
  snapshot : Option (List Row)
  status : String
  message : String
  fetchedAt : Option String
deriving DecidableEq, Repr

/-- The `ValueError` text raised when tenor and yield counts differ
(line 117). -/
def mismatch_msg (nt ny : Nat) : String :=
  "Data mismatch: Found " ++ toString nt ++ " tenors and " ++ toString ny ++ " yields."

/-- The `except` branch (lines 160-162) wraps the exception text into the
user-facing Arabic error message. -/
def err_wrap (e : String) : String :=
  "خطأ أثناء جلب البيانات: " ++ e

/-- The `(None, ERROR, message, None)` tuple of the `except` branch. -/
def error_result (e : String) : FetchResult :=
  { snapshot := none, status := "ERROR", message := err_wrap e, fetchedAt := none }

/-- `fetch_data_from_cbe` from the point where extraction has produced the
raw tenor and yield cell lists (an `Except.error` input models any raise
in the fetch/locate/extract stages, all caught by the same `except`).
Returns the result tuple together with the database state after the call;
the database is written only on the success path, and the empty-frame
case fails on `iloc[0]` (line 156) after a zero-row commit, leaving the
store unchanged. -/
def fetch_data_from_cbe
    (extracted : Except String (List (Option Int) × List (Option ℚ)))
    (today : String) (store : List Row) : FetchResult × List Row :=
  match extracted with
  | .error e => (error_result e, store)
  | .ok (tenors_list, yields_list) =>
    if tenors_list.length ≠ yields_list.length then
      (error_result (mismatch_msg tenors_list.length yields_list.length), store)
    else
      let rows := dropna (tenors_list.zip yields_list)
      let final := sort_by_tenor (apply_tenor_correction rows)
      if final.isEmpty then
        (error_result "index 0 is out of bounds", store)
      else
        let stamped := final.map (fun r => Row.mk today r.1 r.2)
        ({ snapshot := some stamped, status := "SUCCESS",
           message := "تم تحديث البيانات بنجاح من الجدول الصحيح وحفظها!",
           fetchedAt := some today }, upsert store stamped)

/-- `calculate_primary_yield` (lines 199-214), field for field. -/
structure PrimaryResult where
  gross_return : ℚ
  tax_amount : ℚ
  net_return : ℚ
  total_payout : ℚ
deriving DecidableEq, Repr

/-- `calculate_primary_yield`: net return of a primary T-bill investment. -/
def calculate_primary_yield (investment_amount tenor yield_rate tax_rate : ℚ) :
    PrimaryResult :=
  let annual_yield_decimal := yield_rate / 100
  let gross_return := investment_amount * (annual_yield_decimal / DAYS_IN_YEAR) * tenor
  let tax_amount := gross_return * (tax_rate / 100)
  let net_return := gross_return - tax_amount
  let total_payout := investment_amount + net_return
  { gross_return := gross_return, tax_amount := tax_amount,
    net_return := net_return, total_payout := total_payout }

/-- The dict returned by `analyze_secondary_sale`: either the error dict or
the full result dict (whose `error` field is `None`). -/
inductive SecondaryResult
  | err (msg : String)
  | ok (sale_price gross_profit tax_amount net_profit annualized_yield
      original_purchase_price : ℚ)
deriving DecidableEq, Repr

/-- Whether the returned dict carries a non-`None` error. -/
def SecondaryResult.isError : SecondaryResult → Bool
  | .err _ => true
  | .ok _ _ _ _ _ _ => false

/-- `analyze_secondary_sale` (lines 216-241), field for field. -/
def analyze_secondary_sale
    (face_value original_yield original_tenor holding_days secondary_yield
     tax_rate : ℚ) : SecondaryResult :=
  let original_purchase_price :=
    face_value / (1 + (original_yield / 100 * original_tenor / DAYS_IN_YEAR))
  let remaining_days := original_tenor - holding_days
  if remaining_days ≤ 0 then
    .err "أيام الاحتفاظ يجب أن تكون أقل من أجل الإذن الأصلي."
  else
    let sale_price :=
      face_value / (1 + (secondary_yield / 100 * remaining_days / DAYS_IN_YEAR))
    let gross_profit := sale_price - original_purchase_price
    let tax_amount := max 0 (gross_profit * (tax_rate / 100))
    let net_profit := gross_profit - tax_amount
    let annualized_yield :=
      if holding_days > 0 then
        (net_profit / original_purchase_price) * (DAYS_IN_YEAR / holding_days) * 100
      else 0
    .ok sale_price gross_profit tax_amount net_profit annualized_yield
      original_purchase_price


/-- Spec-side formulas for the non-error branch of the secondary-sale
analyzer, written exactly as the spec states them (purchase price,
remaining days, sale price, gross profit, tax, net profit, annualized
yield guarded against zero holding days). -/
def secondary_sale_spec_formulas
    (face oy ot hd my tr : ℚ) : Prop :=
  analyze_secondary_sale face oy ot hd my tr =
    (let purchase := face / (1 + oy / 100 * ot / 365)
     let remaining := ot - hd
     let sale := face / (1 + my / 100 * remaining / 365)
     let gross := sale - purchase
     let tax := max 0 (gross * (tr / 100))
     let net := gross - tax
     .ok sale gross tax net
       (if hd > 0 then net / purchase * (365 / hd) * 100 else 0) purchase)

/-- Rows of the store whose key collides with no key of the snapshot. -/
def scrub (snap store : List Row) : List Row :=
  store.filter (fun q => snap.all (fun r => keyOf q ≠ keyOf r))

/-- In a row list with pairwise-distinct tenors, the first row found for a
given tenor is the unique row carrying that tenor. -/
theorem find_row_of_nodup {rows : List (Int × ℚ)} {t : Int} {y : ℚ}
    (hnd : (rows.map Prod.fst).Nodup) (hm : (t, y) ∈ rows) :
    rows.find? (fun r => r.1 = t) = some (t, y) := by
  induction rows with
  | nil => simp at hm
  | cons a tl ih =>
    rw [List.map_cons, List.nodup_cons] at hnd
    rcases List.mem_cons.mp hm with h1 | h1
    · subst h1
      simp [List.find?_cons_of_pos]
    · have hne : ¬ (a.1 = t) := by
        intro hat
        apply hnd.1
        rw [hat]
        exact List.mem_map.mpr ⟨(t, y), h1, rfl⟩
      rw [List.find?_cons_of_neg _ (by simpa using hne)]
      exact ih hnd.2 h1

/-- C1: when rows for both tenor 182 and tenor 364 survive parsing, the
correction swaps exactly their yields, leaving the yields of all other tenors
unchanged; on the reference rows 91/182/273/364 with yields
26.9/27.1/26.5/25.0 the result maps 91 to 26.9, 182 to 25.0, 273 to 26.5
and 364 to 27.1; and when either tenor is absent, no yield changes. -/
theorem tenor_correction_swaps_182_364
    (rows : List (Int × ℚ)) (y182 y364 : ℚ)
    (hnd : (rows.map Prod.fst).Nodup)
    (h182 : (182, y182) ∈ rows) (h364 : (364, y364) ∈ rows) :
    apply_tenor_correction rows =
      rows.map (fun r =>
        if r.1 = 182 then (r.1, y364)
        else if r.1 = 364 then (r.1, y182)
        else r)
    ∧ apply_tenor_correction [(91, 26.9), (182, 27.1), (273, 26.5), (364, 25.0)]
        = [(91, 26.9), (182, 25.0), (273, 26.5), (364, 27.1)]
    ∧ ∀ rows2 : List (Int × ℚ),
        ((∀ y, (182, y) ∉ rows2) ∨ (∀ y, (364, y) ∉ rows2)) →
        apply_tenor_correction rows2 = rows2 := by
  refine ⟨?_, by norm_num [apply_tenor_correction, List.find?], ?_⟩
  · unfold apply_tenor_correction
    rw [find_row_of_nodup hnd h182, find_row_of_nodup hnd h364]
  · intro rows2 habs
    unfold apply_tenor_correction
    rcases habs with habs | habs
    · have : rows2.find? (fun r => r.1 = 182) = none := by
        rw [List.find?_eq_none]
        intro r hr
        simp only [decide_eq_true_eq]
        intro h
        apply habs r.2
        have hre : r = (182, r.2) := by rw [← h]
        rw [← hre]
        exact hr
      rw [this]
    · have : rows2.find? (fun r => r.1 = 364) = none := by
        rw [List.find?_eq_none]
        intro r hr
        simp only [decide_eq_true_eq]
        intro h
        apply habs r.2
        have hre : r = (364, r.2) := by rw [← h]
        rw [← hre]
        exact hr
      rw [this]
      cases rows2.find? (fun r => r.1 = 182) <;> rfl
/-- C3 counterexample: at the reference input given by the spec
(100000, 91, 29.108, 20) the computed gross return is 2648828/365 ≈
7257.06, which is not within 0.01 of the claimed 7259.90. -/
theorem primary_yield_reference_value_refuted :
    ¬ (|(calculate_primary_yield 100000 91 29.108 20).gross_return - 7259.90| ≤ 1 / 100) := by
  norm_num [calculate_primary_yield, DAYS_IN_YEAR, abs_le]

/-- C3 (amended): the primary-yield calculator computes the four spec
formulas exactly, and at (100000, 91, 29.108, 20) the results are within
0.01 of 7257.06 (gross), 1451.41 (tax), 5805.65 (net) and 105805.65
(payout). -/
theorem calculate_primary_yield_formulas (a t y tr : ℚ) :
    (calculate_primary_yield a t y tr).gross_return = a * (y / 100) * t / 365
    ∧ (calculate_primary_yield a t y tr).tax_amount =
        (calculate_primary_yield a t y tr).gross_return * (tr / 100)
    ∧ (calculate_primary_yield a t y tr).net_return =
        (calculate_primary_yield a t y tr).gross_return -
          (calculate_primary_yield a t y tr).tax_amount
    ∧ (calculate_primary_yield a t y tr).total_payout =
        a + (calculate_primary_yield a t y tr).net_return
    ∧ |(calculate_primary_yield 100000 91 29.108 20).gross_return - 7257.06| ≤ 1 / 100
    ∧ |(calculate_primary_yield 100000 91 29.108 20).tax_amount - 1451.41| ≤ 1 / 100
    ∧ |(calculate_primary_yield 100000 91 29.108 20).net_return - 5805.65| ≤ 1 / 100
    ∧ |(calculate_primary_yield 100000 91 29.108 20).total_payout - 105805.65| ≤ 1 / 100 := by
  refine ⟨?_, ?_, ?_, ?_, ?_, ?_, ?_, ?_⟩ <;>
    norm_num [calculate_primary_yield, DAYS_IN_YEAR, abs_le] <;> ring

/-- C4: for remaining days > 0 the analyzer returns the non-error dict
computed by the formulas of the spec; the reference input
(100000, 29, 182, 60, 30, 20) has 182 - 60 = 122 remaining days and a
sale price strictly below the face value. -/
theorem analyze_secondary_sale_ok (face oy ot hd my tr : ℚ)
    (h : ot - hd > 0) :
    secondary_sale_spec_formulas face oy ot hd my tr
    ∧ (182 - 60 : ℚ) = 122
    ∧ (∃ s g tx n ay p,
        analyze_secondary_sale 100000 29 182 60 30 20 = .ok s g tx n ay p
        ∧ s < 100000) := by
  refine ⟨?_, by norm_num, ?_⟩
  · unfold secondary_sale_spec_formulas analyze_secondary_sale DAYS_IN_YEAR
    rw [if_neg (not_le.mpr h)]
  · refine ⟨22812500 / 251, 18455312500 / 5243139, 3691062500 / 5243139,
      14764250000 / 5243139, 59057 / 3012, 1825000000 / 20889, ?_, by norm_num⟩
    norm_num [analyze_secondary_sale, DAYS_IN_YEAR]

/-- C5: the analyzer returns the error dict exactly when
remaining days = original tenor - holding days is nonpositive,
equivalently when holding days ≥ original tenor. -/
theorem analyze_secondary_sale_error_iff (face oy ot hd my tr : ℚ) :
    ((analyze_secondary_sale face oy ot hd my tr).isError = true ↔ ot - hd ≤ 0)
    ∧ ((analyze_secondary_sale face oy ot hd my tr).isError = true ↔ ot ≤ hd) := by
  unfold analyze_secondary_sale
  by_cases h : ot - hd ≤ 0
  · rw [if_pos h]
    simp [SecondaryResult.isError, h, sub_nonpos.mp h]
  · rw [if_neg h]
    simp [SecondaryResult.isError, h]
    exact sub_pos.mp (not_le.mp h)

/-- C10: with nonnegative amount, tenor and yield and a tax rate between
0 and 100, the primary calculator never reports a loss: the net return is
nonnegative and the total payout is at least the invested amount. -/
theorem calculate_primary_yield_no_loss (a t y tr : ℚ)
    (ha : 0 ≤ a) (ht : 0 ≤ t) (hy : 0 ≤ y) (htr0 : 0 ≤ tr) (htr1 : tr ≤ 100) :
    0 ≤ (calculate_primary_yield a t y tr).net_return
    ∧ a ≤ (calculate_primary_yield a t y tr).total_payout := by
  have hg : 0 ≤ a * (y / 100 / 365) * t := by positivity
  have hfac : 0 ≤ 1 - tr / 100 := by linarith
  have hnet : 0 ≤ a * (y / 100 / 365) * t * (1 - tr / 100) := mul_nonneg hg hfac
  constructor
  · simp only [calculate_primary_yield, DAYS_IN_YEAR]
    nlinarith [hnet]
  · simp only [calculate_primary_yield, DAYS_IN_YEAR]
    nlinarith [hnet]
/-- Closed form of the insertion loop: with pairwise-distinct snapshot
keys, writing a snapshot prepends its rows (in reverse write order) to the
store rows whose keys it does not replace. -/
theorem upsert_eq_append (snap : List Row)
    (hnd : (snap.map keyOf).Nodup) :
    ∀ store, upsert store snap = snap.reverse ++ scrub snap store := by
  induction snap with
  | nil =>
    intro store
    simp [upsert, scrub]
  | cons a tl ih =>
    intro store
    rw [List.map_cons, List.nodup_cons] at hnd
    have step : upsert store (a :: tl) = upsert (insert_or_replace store a) tl := rfl
    rw [step, ih hnd.2]
    have hpa : tl.all (fun r => keyOf a ≠ keyOf r) = true := by
      rw [List.all_eq_true]
      intro r hr
      simp only [ne_eq, decide_eq_true_eq]
      intro hk
      exact hnd.1 (by rw [hk]; exact List.mem_map.mpr ⟨r, hr, rfl⟩)
    have hscrub : scrub tl (insert_or_replace store a) = a :: scrub (a :: tl) store := by
      rw [scrub, insert_or_replace, List.filter_cons, hpa]
      simp only [if_true]
      rw [List.filter_filter]
      congr 1
      rw [scrub]
      refine List.filter_congr fun q _ => ?_
      simp [List.all_cons, Bool.and_comm]
    rw [hscrub]
    simp
/-- A scrub by a snapshot removes nothing from a list it has already
scrubbed. -/
theorem scrub_scrub (snap store : List Row) :
    scrub snap (scrub snap store) = scrub snap store :=
  List.filter_eq_self.mpr (fun q hq => (List.mem_filter.mp hq).2)

/-- A scrub removes every row whose key belongs to the snapshot. -/
theorem scrub_eq_nil (snap l : List Row)
    (h : ∀ r ∈ l, keyOf r ∈ snap.map keyOf) :
    scrub snap l = [] := by
  rw [scrub, List.filter_eq_nil_iff]
  intro r hr
  rcases List.mem_map.mp (h r hr) with ⟨s, hs, hks⟩
  rw [List.all_eq_true]
  intro hall
  have := hall s hs
  simp only [ne_eq, decide_eq_true_eq] at this
  exact this hks.symm

/-- A scrub distributes over list append. -/
theorem scrub_append (snap l1 l2 : List Row) :
    scrub snap (l1 ++ l2) = scrub snap l1 ++ scrub snap l2 :=
  List.filter_append ..
/-- C2: upserting a snapshot (one date, pairwise-distinct tenors) into a
store holding only strictly older dates and then reading the latest data
returns exactly the snapshot rows, without duplicate or dropped
(date, tenor) keys; and re-upserting the same snapshot leaves the stored
state identical. -/
theorem upsert_then_load_roundtrip
    (snap store : List Row) (d : String)
    (hne : snap ≠ [])
    (hdates : ∀ r ∈ snap, r.auctionDate = d)
    (htenors : (snap.map Row.tenorDays).Nodup)
    (hstore : ∀ r ∈ store, r.auctionDate < d) :
    (∃ rows, load_data (some (upsert store snap)) = .stored rows
        ∧ rows.Perm snap ∧ (rows.map keyOf).Nodup)
    ∧ upsert (upsert store snap) snap = upsert store snap := by
  have hkeys : (snap.map keyOf).Nodup := by
    have hmk : snap.map keyOf = (snap.map Row.tenorDays).map (fun t => (d, t)) := by
      rw [List.map_map]
      exact List.map_congr_left fun r hr => by simp [keyOf, hdates r hr]
    rw [hmk]
    exact htenors.map (Prod.mk.inj_left d)
  have hu : upsert store snap = snap.reverse ++ scrub snap store :=
    upsert_eq_append snap hkeys store
  constructor
  · -- read-back part
    have hmax : ((upsert store snap).map Row.auctionDate).maximum = (d : WithBot String) := by
      have hmem : d ∈ (upsert store snap).map Row.auctionDate := by
        rcases List.exists_mem_of_ne_nil snap hne with ⟨r, hr⟩
        refine List.mem_map.mpr ⟨r, ?_, hdates r hr⟩
        rw [hu]
        exact List.mem_append_left _ (List.mem_reverse.mpr hr)
      have hbound : ∀ x ∈ (upsert store snap).map Row.auctionDate, x ≤ d := by
        intro x hx
        rcases List.mem_map.mp hx with ⟨r, hr, hrx⟩
        rw [hu] at hr
        rcases List.mem_append.mp hr with hr | hr
        · rw [← hrx, hdates r (List.mem_reverse.mp hr)]
        · have : r ∈ store := (List.mem_filter.mp hr).1
          rw [← hrx]
          exact le_of_lt (hstore r this)
      convert List.maximum_eq_coe_iff.mpr ⟨hmem, hbound⟩ using 2
    have hfilter : (upsert store snap).filter (fun r => r.auctionDate = d)
        = snap.reverse := by
      rw [hu, List.filter_append]
      have h1 : snap.reverse.filter (fun r => r.auctionDate = d) = snap.reverse :=
        List.filter_eq_self.mpr fun r hr => by
          simp [hdates r (List.mem_reverse.mp hr)]
      have h2 : (scrub snap store).filter (fun r => r.auctionDate = d) = [] :=
        List.filter_eq_nil_iff.mpr fun r hr => by
          have : r ∈ store := (List.mem_filter.mp hr).1
          simp [ne_of_lt (hstore r this)]
      rw [h1, h2, List.append_nil]
    refine ⟨snap.reverse, ?_, List.reverse_perm snap, ?_⟩
    · simp only [load_data, hmax, hfilter]
    · rw [List.map_reverse]
      exact List.nodup_reverse.mpr hkeys
  · -- idempotence part
    rw [upsert_eq_append snap hkeys (upsert store snap), hu]
    rw [scrub_append,
      scrub_eq_nil snap snap.reverse
        (fun r hr => List.mem_map.mpr ⟨r, List.mem_reverse.mp hr, rfl⟩),
      scrub_scrub, List.nil_append]
/-- C7: a never-written store (missing database file or empty table) loads
the hardcoded INITIAL_DATA fallback rather than failing or returning
empty; a non-empty store loads exactly the rows carrying the maximum
stored auction date. -/
theorem load_data_fallback_and_latest :
    load_data none = .fallback INITIAL_DATA
    ∧ load_data (some []) = .fallback INITIAL_DATA
    ∧ ∀ rows : List Row, rows ≠ [] →
        ∃ d, d ∈ rows.map Row.auctionDate
          ∧ (∀ r ∈ rows, r.auctionDate ≤ d)
          ∧ load_data (some rows) =
              .stored (rows.filter (fun r => r.auctionDate = d)) := by
  refine ⟨rfl, rfl, ?_⟩
  intro rows hne
  have hmapne : rows.map Row.auctionDate ≠ [] := by
    simpa using hne
  cases hM : (rows.map Row.auctionDate).maximum with
  | bot => exact absurd (List.maximum_eq_bot.mp hM) hmapne
  | coe d =>
    refine ⟨d, List.maximum_mem hM, ?_, ?_⟩
    · intro r hr
      exact not_lt.mp
        (List.not_lt_maximum_of_mem (List.mem_map_of_mem Row.auctionDate hr) hM)
    · simp only [load_data, hM]

/-- Error messages produced by the catch-all are never empty: they start
with a fixed non-empty Arabic prefix. -/
theorem err_wrap_ne_empty (e : String) : err_wrap e ≠ "" := by
  intro h
  have hl := congrArg String.length h
  rw [err_wrap, String.length_append] at hl
  have hp : 0 < ("خطأ أثناء جلب البيانات: ").length := by decide
  have hz : ("" : String).length = 0 := rfl
  rw [hz] at hl
  omega

/-- C6 counterexample: with four extracted tenors and three extracted
yields the pipeline returns status ERROR, not STRUCTURE_CHANGED. -/
theorem mismatch_status_not_structure_changed :
    (fetch_data_from_cbe
        (.ok ([some 91, some 182, some 273, some 364],
              [some 26.9, some 27.1, some 26.5])) "2025-01-01" []).1.status = "ERROR"
    ∧ (fetch_data_from_cbe
        (.ok ([some 91, some 182, some 273, some 364],
              [some 26.9, some 27.1, some 26.5])) "2025-01-01" []).1.status
        ≠ "STRUCTURE_CHANGED" := by
  exact ⟨rfl, by decide⟩

/-- C6 (amended): whenever the extracted tenor count and yield count
differ, the whole call reduces to the generic ERROR outcome carrying the
data-mismatch message, with the store untouched. -/
theorem mismatch_yields_generic_error
    (tenors : List (Option Int)) (yields : List (Option ℚ))
    (today : String) (store : List Row)
    (h : tenors.length ≠ yields.length) :
    fetch_data_from_cbe (.ok (tenors, yields)) today store =
      (error_result (mismatch_msg tenors.length yields.length), store) := by
  simp only [fetch_data_from_cbe, if_pos h]

/-- C8: any fetch attempt that does not end in status SUCCESS leaves the
persisted store exactly as it was. -/
theorem fetch_failure_preserves_store
    (extracted : Except String (List (Option Int) × List (Option ℚ)))
    (today : String) (store : List Row)
    (h : (fetch_data_from_cbe extracted today store).1.status ≠ "SUCCESS") :
    (fetch_data_from_cbe extracted today store).2 = store := by
  rcases extracted with e | ⟨tl, yl⟩
  · rfl
  · by_cases hlen : tl.length = yl.length
    · by_cases hemp : (sort_by_tenor (apply_tenor_correction (dropna (tl.zip yl)))).isEmpty
      · simp [fetch_data_from_cbe, hlen, hemp]
      · exfalso
        apply h
        simp [fetch_data_from_cbe, hlen, hemp]
    · simp [fetch_data_from_cbe, hlen]

/-- C9: every fetch return value couples its fields to the status: SUCCESS
comes with a snapshot and a fetch date, ERROR with neither but with a
non-empty message, and no other status exists. -/
theorem fetch_status_coupling
    (extracted : Except String (List (Option Int) × List (Option ℚ)))
    (today : String) (store : List Row) :
    ((fetch_data_from_cbe extracted today store).1.status = "SUCCESS"
      ∧ (fetch_data_from_cbe extracted today store).1.snapshot ≠ none
      ∧ (fetch_data_from_cbe extracted today store).1.fetchedAt ≠ none)
    ∨ ((fetch_data_from_cbe extracted today store).1.status = "ERROR"
      ∧ (fetch_data_from_cbe extracted today store).1.snapshot = none
      ∧ (fetch_data_from_cbe extracted today store).1.fetchedAt = none
      ∧ (fetch_data_from_cbe extracted today store).1.message ≠ "") := by
  rcases extracted with e | ⟨tl, yl⟩
  · exact Or.inr ⟨rfl, rfl, rfl, err_wrap_ne_empty e⟩
  · by_cases hlen : tl.length = yl.length
    · by_cases hemp : (sort_by_tenor (apply_tenor_correction (dropna (tl.zip yl)))).isEmpty
      · refine Or.inr ⟨?_, ?_, ?_, ?_⟩ <;>
          simp [fetch_data_from_cbe, hlen, hemp, error_result, err_wrap_ne_empty]
      · refine Or.inl ⟨?_, ?_, ?_⟩ <;>
          simp [fetch_data_from_cbe, hlen, hemp]
    · refine Or.inr ⟨?_, ?_, ?_, ?_⟩ <;>
        simp [fetch_data_from_cbe, hlen, error_result, err_wrap_ne_empty]
/-- C1 witness: the swap equation instantiated on the reference rows, with
every hypothesis discharged concretely. -/
theorem tenor_correction_swaps_182_364_witness :
    apply_tenor_correction [(91, 26.9), (182, 27.1), (273, 26.5), (364, 25.0)] =
      ([(91, 26.9), (182, 27.1), (273, 26.5), (364, 25.0)] : List (Int × ℚ)).map
        (fun r => if r.1 = 182 then (r.1, 25.0)
          else if r.1 = 364 then (r.1, 27.1) else r) :=
  (tenor_correction_swaps_182_364
    [(91, 26.9), (182, 27.1), (273, 26.5), (364, 25.0)] 27.1 25.0
    (by decide) (by simp) (by simp)).1

/-- C2 witness: the roundtrip instantiated on a concrete two-row snapshot
over the empty store. -/
theorem upsert_then_load_roundtrip_witness :
    (∃ rows, load_data (some (upsert []
        [⟨"2025-01-02", 91, 25⟩, ⟨"2025-01-02", 182, 26⟩])) = .stored rows
      ∧ rows.Perm [⟨"2025-01-02", 91, 25⟩, ⟨"2025-01-02", 182, 26⟩]
      ∧ (rows.map keyOf).Nodup)
    ∧ upsert (upsert [] [⟨"2025-01-02", 91, 25⟩, ⟨"2025-01-02", 182, 26⟩])
        [⟨"2025-01-02", 91, 25⟩, ⟨"2025-01-02", 182, 26⟩]
      = upsert [] [⟨"2025-01-02", 91, 25⟩, ⟨"2025-01-02", 182, 26⟩] :=
  upsert_then_load_roundtrip
    [⟨"2025-01-02", 91, 25⟩, ⟨"2025-01-02", 182, 26⟩] [] "2025-01-02"
    (by simp) (by simp) (by decide) (by simp)

/-- C4 witness: the spec formulas hold at the reference secondary-sale
input. -/
theorem analyze_secondary_sale_ok_witness :
    secondary_sale_spec_formulas 100000 29 182 60 30 20 :=
  (analyze_secondary_sale_ok 100000 29 182 60 30 20 (by norm_num)).1

/-- C6 witness: the amended classification instantiated on four tenors and
three yields. -/
theorem mismatch_yields_generic_error_witness :
    fetch_data_from_cbe
        (.ok ([some 91, some 182, some 273, some 364],
              [some 26.9, some 27.1, some 26.5])) "2025-01-01" [] =
      (error_result (mismatch_msg 4 3), []) :=
  mismatch_yields_generic_error
    [some 91, some 182, some 273, some 364] [some 26.9, some 27.1, some 26.5]
    "2025-01-01" [] (by decide)

/-- C7 witness: the latest-date branch instantiated on a one-row store. -/
theorem load_data_fallback_and_latest_witness :
    ∃ d, d ∈ ([⟨"2025-01-01", 91, 25⟩] : List Row).map Row.auctionDate
      ∧ (∀ r ∈ ([⟨"2025-01-01", 91, 25⟩] : List Row), r.auctionDate ≤ d)
      ∧ load_data (some [⟨"2025-01-01", 91, 25⟩]) =
          .stored (([⟨"2025-01-01", 91, 25⟩] : List Row).filter
            (fun r => r.auctionDate = d)) :=
  load_data_fallback_and_latest.2.2 [⟨"2025-01-01", 91, 25⟩] (by simp)

/-- C8 witness: a transport-stage failure leaves a concrete one-row store
unchanged. -/
theorem fetch_failure_preserves_store_witness :
    (fetch_data_from_cbe (.error "timeout") "2025-01-01"
        [⟨"2025-01-01", 91, 25⟩]).2 = [⟨"2025-01-01", 91, 25⟩] :=
  fetch_failure_preserves_store (.error "timeout") "2025-01-01"
    [⟨"2025-01-01", 91, 25⟩] (by decide)

/-- C10 witness: no loss at the reference primary-yield input. -/
theorem calculate_primary_yield_no_loss_witness :
    0 ≤ (calculate_primary_yield 100000 91 29.108 20).net_return
    ∧ 100000 ≤ (calculate_primary_yield 100000 91 29.108 20).total_payout :=
  calculate_primary_yield_no_loss 100000 91 29.108 20
    (by norm_num) (by norm_num) (by norm_num) (by norm_num) (by norm_num)

end WebCalculator
